import Mathlib

/-!
Verification development for the gh-secrets-migrator repository.

The Go sources embedded here are:
- `internal/migrator/migrator.go` — `Config`, `Migrator.Run`, `GenerateWorkflow`
  (the live bash-variant orchestrator);
- `internal/github/client.go` — the GitHub API client wrapper
  (`CreateRepoSecret`, `CreateRepoSecretPlaintext`, branch and file operations);
- the historical PowerShell variant of `GenerateWorkflow`
  (`src/unnamed/part_007`);
- the Python `create_environment` helper quoted verbatim in
  `src/unnamed/part_010`.

Network effects are modelled by pure state passing over a `World` of two
repository states plus an explicit trace of platform API operations (`Op`).
The sealed-box primitive is modelled symbolically: the payload a secret
upload carries is either `SecretPayload.sealedBox key plaintext` (the result
of `box.SealAnonymous` against `key`) or `SecretPayload.plainValue`, which
the engine never produces.
-/

set_option maxRecDepth 400000

/-- Boolean test that the character list `pat` occurs contiguously inside the
second list. -/
def charsWithin (pat : List Char) : List Char → Bool
  | [] => pat.isPrefixOf []
  | c :: cs => pat.isPrefixOf (c :: cs) || charsWithin pat cs

/-- String `s` contains `pat` as a contiguous substring. -/
def containsSubstr (s pat : String) : Bool :=
  charsWithin pat.toList s.toList

/-- Number of (possibly overlapping) occurrences of `pat` inside `s`. -/
def countOccurrences (s pat : String) : Nat :=
  (s.toList.tails.filter (fun t => pat.toList.isPrefixOf t)).length

/-- String `pat` occurs at the very start of `s` ("begins with"). -/
def strLeads (pat s : String) : Bool :=
  pat.toList.isPrefixOf s.toList

/-- Whitespace recognised by Go's `strings.TrimSpace` restricted to the ASCII
whitespace that can occur in the embedded templates. -/
def isGoSpace (c : Char) : Bool :=
  c == ' ' || c == '\t' || c == '\n' || c == '\r'

/-- ASCII lower-casing of one character, the fragment of Python's
`str.lower` exercised by the embedded error-message checks. -/
def charLower (c : Char) : Char :=
  if 65 ≤ c.toNat ∧ c.toNat ≤ 90 then Char.ofNat (c.toNat + 32) else c

/-- Model of Python's `str.lower` on the ASCII error messages compared by
`create_environment`. -/
def lowerAscii (s : String) : String :=
  String.mk (s.toList.map charLower)

/-- Model of Go's `strings.TrimSpace`: drop leading and trailing whitespace. -/
def trimSpace (s : String) : String :=
  String.mk (((s.toList.dropWhile isGoSpace).reverse.dropWhile isGoSpace).reverse)

/-- Model of the coreutils `rev` filter used by the generated bash script:
reverse the characters of the line. -/
def revLine (s : String) : String :=
  String.mk s.toList.reverse

/-- The value transform the generated bash script applies to each secret
value before uploading it: `FINAL_VALUE=$(echo "$SECRET_VALUE" | rev | rev)`,
i.e. `rev` applied twice. -/
def revTwice (s : String) : String :=
  revLine (revLine s)

/-- Embedding of `GenerateWorkflow` from `internal/migrator/migrator.go`
(the live bash variant): `fmt.Sprintf` of the fixed template with
`branchName`, `targetOrg`, `targetRepo`, `branchName` interpolated, followed
by `strings.TrimSpace`. The template text is reproduced byte-for-byte; `\x7b`
and `\x7d` denote the literal brace characters. -/
def generateWorkflow (targetOrg targetRepo branchName : String) : String :=
  trimSpace
    ("name: move-secrets\n" ++
     "on:\n" ++
     "  push:\n" ++
     "    branches: [ \"" ++ branchName ++ "\" ]\n" ++
     "jobs:\n" ++
     "  build:\n" ++
     "    runs-on: ubuntu-latest\n" ++
     "    steps:\n" ++
     "      - name: Populate Secrets\n" ++
     "        env:\n" ++
     "          REPO_SECRETS: $\x7b\x7b toJSON(secrets) \x7d\x7d\n" ++
     "          TARGET_ORG: \x27" ++ targetOrg ++ "\x27\n" ++
     "          TARGET_REPO: \x27" ++ targetRepo ++ "\x27\n" ++
     "          GH_TOKEN: $\x7b\x7b secrets.SECRETS_MIGRATOR_PAT \x7d\x7d\n" ++
     "        run: |\n" ++
     "          #!/bin/bash\n" ++
     "          set -e\n" ++
     "\n" ++
     "          echo \"Populating secrets in target repository...\"\n" ++
     "          echo \"$REPO_SECRETS\" | jq -r \x27to_entries[] | \"\\(.key)|\\(.value)\"\x27 | while IFS=\x27|\x27 read -r SECRET_NAME SECRET_VALUE; do\n" ++
     "            if [[ \"$SECRET_NAME\" != \"github_token\" && \"$SECRET_NAME\" != \"SECRETS_MIGRATOR_PAT\" ]]; then\n" ++
     "              echo \"Processing: $SECRET_NAME\"\n" ++
     "              \n" ++
     "              # Echo secret, reverse twice, and capture output\n" ++
     "              FINAL_VALUE=$(echo \"$SECRET_VALUE\" | rev | rev)\n" ++
     "              \n" ++
     "              # Update placeholder secret in target repo\n" ++
     "              gh secret set \"$SECRET_NAME\" \\\n" ++
     "                --body \"$FINAL_VALUE\" \\\n" ++
     "                --repo \"$TARGET_ORG/$TARGET_REPO\" \\\n" ++
     "                || echo \"Warning: Could not update secret $SECRET_NAME\"\n" ++
     "              \n" ++
     "              echo \"✓ Updated \x27$SECRET_NAME\x27\"\n" ++
     "            fi\n" ++
     "          done\n" ++
     "\n" ++
     "          # Cleanup: delete SECRETS_MIGRATOR_PAT from source repo\n" ++
     "          echo \"Cleaning up...\"\n" ++
     "          gh secret delete SECRETS_MIGRATOR_PAT --repo $\x7b\x7b github.repository \x7d\x7d --confirm || echo \"Warning: Could not delete SECRETS_MIGRATOR_PAT\"\n" ++
     "\n" ++
     "          # Delete the migration branch\n" ++
     "          gh api repos/$\x7b\x7b github.repository_owner \x7d\x7d/$\x7b\x7b github.repository_name \x7d\x7d/git/refs/heads/" ++ branchName ++ " -X DELETE || echo \"Warning: Could not delete migration branch\"\n" ++
     "          \n" ++
     "          echo \"✓ Secret migration complete!\"\n" ++
     "        shell: bash\n")

/-- Embedding of the historical `GenerateWorkflow` variant from
`src/unnamed/part_007` (PowerShell transport): `fmt.Sprintf` of its fixed
template with `branchName`, `targetOrg`, `targetRepo` interpolated, followed
by `strings.TrimSpace`. -/
def generateWorkflowPwsh (targetOrg targetRepo branchName : String) : String :=
  trimSpace
    ("name: move-secrets\n" ++
     "on:\n" ++
     "  push:\n" ++
     "    branches: [ \"" ++ branchName ++ "\" ]\n" ++
     "jobs:\n" ++
     "  build:\n" ++
     "    runs-on: windows-latest\n" ++
     "    steps:\n" ++
     "      - name: Install Crypto Package\n" ++
     "        run: |\n" ++
     "          Install-Package -Name Sodium.Core -ProviderName NuGet -Scope CurrentUser -RequiredVersion 1.3.0 -Destination . -Force\n" ++
     "        shell: pwsh\n" ++
     "      - name: Migrate Secrets\n" ++
     "        run: |\n" ++
     "          $sodiumPath = Resolve-Path \".\\Sodium.Core.1.3.0\\lib\\netstandard2.1\\Sodium.Core.dll\"\n" ++
     "          [System.Reflection.Assembly]::LoadFrom($sodiumPath)\n" ++
     "\n" ++
     "          $targetPat = [Convert]::ToBase64String([Text.Encoding]::ASCII.GetBytes(\":$($env:TARGET_PAT)\"))\n" ++
     "          $publicKeyResponse = Invoke-RestMethod -Uri \"https://api.github.com/repos/$env:TARGET_ORG/$env:TARGET_REPO/actions/secrets/public-key\" -Method \"GET\" -Headers @\x7b Authorization = \"Basic $targetPat\" \x7d\n" ++
     "          $publicKey = [Convert]::FromBase64String($publicKeyResponse.key)\n" ++
     "          $publicKeyId = $publicKeyResponse.key_id\n" ++
     "              \n" ++
     "          $secrets = $env:REPO_SECRETS | ConvertFrom-Json\n" ++
     "          $secrets | Get-Member -MemberType NoteProperty | ForEach-Object \x7b\n" ++
     "            $secretName = $_.Name\n" ++
     "            $secretValue = $secrets.\"$secretName\"\n" ++
     "     \n" ++
     "            if ($secretName -ne \"github_token\" -and $secretName -ne \"SECRETS_MIGRATOR_PAT\") \x7b\n" ++
     "              Write-Output \"Migrating Secret: $secretName\"\n" ++
     "              $secretBytes = [Text.Encoding]::UTF8.GetBytes($secretValue)\n" ++
     "              $sealedPublicKeyBox = [Sodium.SealedPublicKeyBox]::Create($secretBytes, $publicKey)\n" ++
     "              $encryptedSecret = [Convert]::ToBase64String($sealedPublicKeyBox)\n" ++
     "                 \n" ++
     "              $Params = @\x7b\n" ++
     "                Uri = \"https://api.github.com/repos/$env:TARGET_ORG/$env:TARGET_REPO/actions/secrets/$secretName\"\n" ++
     "                Headers = @\x7b\n" ++
     "                  Authorization = \"Basic $targetPat\"\n" ++
     "                \x7d\n" ++
     "                Method = \"PUT\"\n" ++
     "                Body = \"\x7b \\\"encrypted_value\\\": \\\"$encryptedSecret\\\", \\\"key_id\\\": \\\"$publicKeyId\\\" \x7d\"\n" ++
     "              \x7d\n" ++
     "\n" ++
     "              $createSecretResponse = Invoke-RestMethod @Params\n" ++
     "            \x7d\n" ++
     "          \x7d\n" ++
     "\n" ++
     "          Write-Output \"Cleaning up...\"\n" ++
     "          Invoke-RestMethod -Uri \"https://api.github.com/repos/$\x7b\x7b github.repository \x7d\x7d/git/$\x7b\x7b github.ref \x7d\x7d\" -Method \"DELETE\" -Headers @\x7b Authorization = \"Basic $targetPat\" \x7d\n" ++
     "          Invoke-RestMethod -Uri \"https://api.github.com/repos/$\x7b\x7b github.repository \x7d\x7d/actions/secrets/SECRETS_MIGRATOR_PAT\" -Method \"DELETE\" -Headers @\x7b Authorization = \"Basic $targetPat\" \x7d\n" ++
     "        env:\n" ++
     "          REPO_SECRETS: $\x7b\x7b toJSON(secrets) \x7d\x7d\n" ++
     "          TARGET_PAT: $\x7b\x7b secrets.SECRETS_MIGRATOR_PAT \x7d\x7d\n" ++
     "          TARGET_ORG: \x27" ++ targetOrg ++ "\x27\n" ++
     "          TARGET_REPO: \x27" ++ targetRepo ++ "\x27\n" ++
     "        shell: pwsh\n")

/-- Payload carried by a create-or-update-secret API call. `sealedBox key v`
stands for the ciphertext `box.SealAnonymous` produces for plaintext `v`
under public key `key`; `plainValue` stands for an unencrypted upload, which
the embedded client never constructs. -/
inductive SecretPayload where
  | sealedBox (publicKey : List Nat) (plaintext : String)
  | plainValue (value : String)
deriving DecidableEq

/-- Platform API operations the engine can issue, recorded in call order.
`validateScopes` is the scope-validation probe described by the spec; it is
part of the operation vocabulary so that its absence from traces is a
meaningful statement. -/
inductive Op where
  | listSecrets (org repo : String)
  | getDefaultBranch (org repo : String)
  | getCommitSha (org repo branch : String)
  | deleteBranchRef (org repo name : String)
  | createBranchRef (org repo name sha : String)
  | getPublicKey (org repo : String)
  | createOrUpdateSecret (org repo name keyID : String) (payload : SecretPayload)
  | createFile (org repo branch path contents : String)
  | validateScopes (role : String)
deriving DecidableEq

/-- An operation that changes platform state (ref creation/deletion, secret
upload, file commit), as opposed to a read or a validation probe. -/
def Op.isMutating : Op → Bool
  | .deleteBranchRef _ _ _ => true
  | .createBranchRef _ _ _ _ => true
  | .createOrUpdateSecret _ _ _ _ _ => true
  | .createFile _ _ _ _ _ => true
  | _ => false

/-- An operation that is a credential scope-validation probe. -/
def Op.isValidation : Op → Bool
  | .validateScopes _ => true
  | _ => false

/-- A secret upload whose payload is an unencrypted value. -/
def Op.sendsPlainSecret : Op → Bool
  | .createOrUpdateSecret _ _ _ _ (SecretPayload.plainValue _) => true
  | _ => false

/-- State of one repository as seen through the API surface the engine uses:
its secret names, its branches (name, head sha), its committed files
(branch, path, contents), the default branch name, and the Actions
public key (bytes and key id). -/
structure RepoState where
  secrets : List String
  branches : List (String × String)
  files : List (String × String × String)
  defaultBranch : String
  publicKey : List Nat
  publicKeyID : String
deriving DecidableEq

/-- State of the two repositories a migration session touches. -/
structure World where
  source : RepoState
  target : RepoState
deriving DecidableEq

/-- Embedding of `Config` from `internal/migrator/migrator.go`. -/
structure Config where
  sourceOrg : String
  sourceRepo : String
  targetOrg : String
  targetRepo : String
  sourcePAT : String
  targetPAT : String
  verbose : Bool
deriving DecidableEq

/-- Resolution of `GetCommitSha`'s ref lookup: the head sha of branch
`name`, if the branch exists. -/
def findBranchSha (branches : List (String × String)) (name : String) : Option String :=
  (branches.find? (fun b => b.1 == name)).map (fun b => b.2)

/-- Embedding of `Client.DeleteBranch` (via `DeleteRef`): deleting an absent
ref is an error ("not found"); deleting a present ref removes it. -/
def deleteBranch (st : RepoState) (name : String) : Except String RepoState :=
  if st.branches.any (fun b => b.1 == name) then
    .ok { st with branches := st.branches.filter (fun b => b.1 != name) }
  else
    .error "failed to delete ref: reference does not exist"

/-- Embedding of `Client.CreateBranch` (via `CreateRef`): creating a ref that
already exists is an error; otherwise the branch is added at `sha`. -/
def createBranch (st : RepoState) (name sha : String) : Except String RepoState :=
  if st.branches.any (fun b => b.1 == name) then
    .error "failed to create branch: reference already exists"
  else
    .ok { st with branches := st.branches ++ [(name, sha)] }

/-- The delete-then-create branch setup sequence of `Migrator.Run`
(migrator.go lines 93-108): the deletion's result is ignored, the creation's
error is returned. `deleteFault` injects a transient failure into the
deletion call (state unchanged, error ignored by the caller exactly as in the
source); `createFault` injects a transient failure into the creation call. -/
def ensureBranch (deleteFault createFault : Bool) (st : RepoState) (name sha : String) :
    Except String RepoState :=
  let st1 :=
    if deleteFault then st
    else
      match deleteBranch st name with
      | .ok s => s
      | .error _ => st
  if createFault then .error "failed to create branch: network error"
  else createBranch st1 name sha

/-- Embedding of `Client.CreateRepoSecret` (client.go lines 83-117): reject a
public key whose byte length is not 32 before any network call; otherwise
seal the value against the key and issue one create-or-update-secret call.
The returned list is the trace of network operations performed. -/
def createRepoSecret (org repo : String) (st : RepoState) (publicKey : List Nat)
    (publicKeyID secretName secretValue : String) :
    Except String RepoState × List Op :=
  if publicKey.length ≠ 32 then
    (.error ("invalid public key length: expected 32 bytes, got " ++ toString publicKey.length), [])
  else
    (.ok { st with
            secrets := if st.secrets.contains secretName then st.secrets
                       else st.secrets ++ [secretName] },
     [Op.createOrUpdateSecret org repo secretName publicKeyID
        (SecretPayload.sealedBox publicKey secretValue)])

/-- Embedding of `Client.GetRepoPublicKey`: returns the repository's key
bytes and key id, issuing one read call. -/
def getRepoPublicKey (org repo : String) (st : RepoState) :
    (List Nat × String) × List Op :=
  ((st.publicKey, st.publicKeyID), [Op.getPublicKey org repo])

/-- Embedding of `Client.CreateRepoSecretPlaintext` (client.go lines
119-136): fetch the repository public key, then delegate to
`createRepoSecret` with the plaintext value. -/
def createRepoSecretPlaintext (org repo : String) (st : RepoState)
    (secretName secretValue : String) :
    Except String RepoState × List Op :=
  let keyFetch := getRepoPublicKey org repo st
  let inner := createRepoSecret org repo st keyFetch.1.1 keyFetch.1.2 secretName secretValue
  (inner.1, keyFetch.2 ++ inner.2)

/-- The placeholder-creation loop of `Migrator.Run` (migrator.go lines
110-119): one `CreateRepoSecretPlaintext` call per secret to migrate, with
value `"REPLACE_ME_LATER"`, aborting on the first error. -/
def createPlaceholders (targetOrg targetRepo : String) (st : RepoState) :
    List String → Except String RepoState × List Op
  | [] => (.ok st, [])
  | n :: rest =>
    match createRepoSecretPlaintext targetOrg targetRepo st n "REPLACE_ME_LATER" with
    | (.error e, ops) =>
        (.error ("failed to create placeholder for secret " ++ n ++ ": " ++ e), ops)
    | (.ok st2, ops) =>
        let r := createPlaceholders targetOrg targetRepo st2 rest
        (r.1, ops ++ r.2)

/-- The secret filter of `Migrator.Run` (migrator.go lines 62-68): keep every
listed name that is neither `"github_token"` nor `"SECRETS_MIGRATOR_PAT"`. -/
def secretsToMigrate (names : List String) : List String :=
  names.filter (fun name => name != "github_token" && name != "SECRETS_MIGRATOR_PAT")

/-- Embedding of `Migrator.Run` (migrator.go lines 46-132) over a `World`,
returning the run's outcome together with the trace of platform operations
in issue order: list source secrets, filter, short-circuit on an empty
filtered list; otherwise resolve the default branch head, delete-then-create
the migration branch (deletion failure ignored), create one placeholder
secret per migrated name on the target, and commit the generated workflow
file to the branch. -/
def runMigration (cfg : Config) (w : World) : Except String World × List Op :=
  let branchName := "migrate-secrets"
  let t0 := [Op.listSecrets cfg.sourceOrg cfg.sourceRepo]
  let stm := secretsToMigrate w.source.secrets
  if stm.isEmpty then
    (.ok w, t0)
  else
    let t1 := t0 ++ [Op.getDefaultBranch cfg.sourceOrg cfg.sourceRepo]
    match findBranchSha w.source.branches w.source.defaultBranch with
    | none =>
        (.error "failed to get commit SHA",
         t1 ++ [Op.getCommitSha cfg.sourceOrg cfg.sourceRepo w.source.defaultBranch])
    | some masterCommitSha =>
      let t2 := t1 ++ [Op.getCommitSha cfg.sourceOrg cfg.sourceRepo w.source.defaultBranch]
      let srcAfterDelete :=
        match deleteBranch w.source branchName with
        | .ok s => s
        | .error _ => w.source
      let t3 := t2 ++ [Op.deleteBranchRef cfg.sourceOrg cfg.sourceRepo branchName]
      match createBranch srcAfterDelete branchName masterCommitSha with
      | .error e =>
          (.error ("failed to create branch: " ++ e),
           t3 ++ [Op.createBranchRef cfg.sourceOrg cfg.sourceRepo branchName masterCommitSha])
      | .ok src2 =>
        let t4 := t3 ++ [Op.createBranchRef cfg.sourceOrg cfg.sourceRepo branchName masterCommitSha]
        match createPlaceholders cfg.targetOrg cfg.targetRepo w.target stm with
        | (.error e, tl) => (.error e, t4 ++ tl)
        | (.ok tgt2, tl) =>
          let t5 := t4 ++ tl
          let workflow := generateWorkflow cfg.targetOrg cfg.targetRepo branchName
          let src3 :=
            { src2 with
                files := src2.files ++
                  [(branchName, ".github/workflows/migrate-secrets.yml", workflow)] }
          (.ok { source := src3, target := tgt2 },
           t5 ++ [Op.createFile cfg.sourceOrg cfg.sourceRepo branchName
                    ".github/workflows/migrate-secrets.yml" workflow])

/-- Embedding of the Python `create_environment` helper quoted in
`src/unnamed/part_010`: the platform call's outcome is passed in; an
exception whose text contains "409" or (lower-cased) "already exists" is
swallowed as success, any other exception is re-raised as a runtime error. -/
def create_environment (org repo environment_name : String)
    (platformResult : Except String Unit) : Except String Unit :=
  match platformResult with
  | .ok _ => .ok ()
  | .error e =>
      if containsSubstr e "409" || containsSubstr (lowerAscii e) "already exists" then
        .ok ()
      else
        .error ("Failed to create environment " ++ environment_name ++ ": " ++ e)

/-- Target repository state used by the concrete scenarios: empty, with a
32-byte Actions public key. -/
def targetRepoA : RepoState :=
  { secrets := [], branches := [("main", "tgt-sha")], files := [],
    defaultBranch := "main", publicKey := List.replicate 32 7, publicKeyID := "key-1" }

/-- Scenario A world (spec §8): the source repository's secrets are exactly
`API_KEY` and `DB_URL`, its default branch `main` is at `shaMain`. -/
def scenarioAWorld : World :=
  { source := { secrets := ["API_KEY", "DB_URL"], branches := [("main", "shaMain")],
                files := [], defaultBranch := "main", publicKey := [], publicKeyID := "" },
    target := targetRepoA }

/-- Scenario B world (spec §8): the source repository holds only reserved
names, so the filtered secret list is empty. -/
def scenarioBWorld : World :=
  { source := { secrets := ["github_token", "SECRETS_MIGRATOR_PAT"],
                branches := [("main", "shaMain")], files := [],
                defaultBranch := "main", publicKey := [], publicKeyID := "" },
    target := targetRepoA }

/-- Configuration used by the concrete scenarios. -/
def scenarioCfg : Config :=
  { sourceOrg := "src-org", sourceRepo := "src-repo",
    targetOrg := "tgt-org", targetRepo := "tgt-repo",
    sourcePAT := "spat", targetPAT := "tpat", verbose := false }

/-- C1: the generated definition's cleanup contract fails on the code. The
workflow rendered by `GenerateWorkflow` has exactly one step (one `- name:`
occurrence), whose script starts with `set -e`, so every command after a
failing unguarded command — the cleanup included — is skipped; the text
contains no `always` (so no `if: always()` scheduling), and the command that
deletes the temporary credential carries an `|| echo "Warning: ..."`
fallback, so a failed deletion leaves the compound command (and the run)
successful instead of marking it failed. -/
theorem c1_cleanup_not_always_and_failure_swallowed :
    countOccurrences (generateWorkflow "tgt-org" "tgt-repo" "migrate-secrets") "- name:" = 1 ∧
    containsSubstr (generateWorkflow "tgt-org" "tgt-repo" "migrate-secrets") "always" = false ∧
    containsSubstr (generateWorkflow "tgt-org" "tgt-repo" "migrate-secrets")
      "          set -e\n" = true ∧
    containsSubstr (generateWorkflow "tgt-org" "tgt-repo" "migrate-secrets")
      "gh secret delete SECRETS_MIGRATOR_PAT --repo $\x7b\x7b github.repository \x7d\x7d --confirm || echo \"Warning: Could not delete SECRETS_MIGRATOR_PAT\"" = true := by
  refine ⟨?_, ?_, ?_, ?_⟩ <;> decide

/-- C2: the live bash-variant definition does not itself encrypt the secret
values with the target repository's public key. Its per-secret transform —
`rev` piped into `rev` — is the identity on every value, its text never
mentions the public-key endpoint, and it hands the untransformed value to an
external CLI; by contrast the historical PowerShell variant fetches
`actions/secrets/public-key` and seals each value with a sealed public-key
box inside the run. -/
theorem c2_bash_variant_applies_identity_transform :
    (∀ v : String, revTwice v = v) ∧
    containsSubstr (generateWorkflow "tgt-org" "tgt-repo" "migrate-secrets")
      "FINAL_VALUE=$(echo \"$SECRET_VALUE\" | rev | rev)" = true ∧
    containsSubstr (generateWorkflow "tgt-org" "tgt-repo" "migrate-secrets") "public-key" = false ∧
    containsSubstr (generateWorkflowPwsh "tgt-org" "tgt-repo" "migrate-secrets")
      "actions/secrets/public-key" = true ∧
    containsSubstr (generateWorkflowPwsh "tgt-org" "tgt-repo" "migrate-secrets")
      "[Sodium.SealedPublicKeyBox]::Create($secretBytes, $publicKey)" = true := by
  refine ⟨?_, ?_, ?_, ?_, ?_⟩
  · intro v
    cases v with
    | mk l => simp [revTwice, revLine, String.toList]
  · decide
  · decide
  · decide
  · decide

/-- C4: when the filtered secret list is empty the orchestrator returns
success immediately: the world is unchanged and the trace holds exactly the
one read-only list-secrets call, so no mutating operation is issued. -/
theorem c4_empty_filter_short_circuits (cfg : Config) (w : World)
    (h : secretsToMigrate w.source.secrets = []) :
    runMigration cfg w = (.ok w, [Op.listSecrets cfg.sourceOrg cfg.sourceRepo]) ∧
    (runMigration cfg w).2.all (fun op => !op.isMutating) = true := by
  have h1 : runMigration cfg w = (.ok w, [Op.listSecrets cfg.sourceOrg cfg.sourceRepo]) := by
    simp [runMigration, h]
  exact ⟨h1, by rw [h1]; rfl⟩

/-- C4 witness: scenario B — the source holds only the two reserved names,
the filter is empty, and the run is a successful no-op. -/
theorem c4_witness :
    secretsToMigrate scenarioBWorld.source.secrets = [] ∧
    runMigration scenarioCfg scenarioBWorld =
      (.ok scenarioBWorld, [Op.listSecrets scenarioCfg.sourceOrg scenarioCfg.sourceRepo]) :=
  ⟨by decide, (c4_empty_filter_short_circuits scenarioCfg scenarioBWorld (by decide)).1⟩

/-- C5 counterexample: `SECRETS_MIGRATOR_TARGET_PAT` begins with the
migration-tool prefix `SECRETS_MIGRATOR_` yet the filter keeps it, because
the code excludes only names exactly equal to `github_token` or
`SECRETS_MIGRATOR_PAT`, not names matching the prefix. -/
theorem c5_counterexample :
    strLeads "SECRETS_MIGRATOR_" "SECRETS_MIGRATOR_TARGET_PAT" = true ∧
    secretsToMigrate ["SECRETS_MIGRATOR_TARGET_PAT"] = ["SECRETS_MIGRATOR_TARGET_PAT"] := by
  decide

/-- C5 amended: a discovered name is excluded from the migrated set exactly
when it equals `github_token` or equals `SECRETS_MIGRATOR_PAT`; no other
name — prefixed or not — is excluded. -/
theorem c5_amended_filter_is_equality (names : List String) (n : String) :
    n ∈ secretsToMigrate names ↔
      n ∈ names ∧ n ≠ "github_token" ∧ n ≠ "SECRETS_MIGRATOR_PAT" := by
  simp [secretsToMigrate, List.mem_filter, and_assoc]

/-- C6: a public key whose byte length is not 32 makes `CreateRepoSecret`
return the fixed length error computed locally, with an empty operation
trace — no network call is attempted. -/
theorem c6_bad_key_is_local_error (org repo : String) (st : RepoState)
    (publicKey : List Nat) (publicKeyID secretName secretValue : String)
    (h : publicKey.length ≠ 32) :
    createRepoSecret org repo st publicKey publicKeyID secretName secretValue =
      (.error ("invalid public key length: expected 32 bytes, got " ++ toString publicKey.length),
       ([] : List Op)) := by
  simp [createRepoSecret, h]

/-- C6 witness: the empty key (length 0) yields the deterministic error and
an empty network trace. -/
theorem c6_witness :
    ([] : List Nat).length ≠ 32 ∧
    createRepoSecret "o" "r" targetRepoA [] "kid" "NAME" "VALUE" =
      (.error ("invalid public key length: expected 32 bytes, got " ++
        toString ([] : List Nat).length), ([] : List Op)) :=
  ⟨by decide, c6_bad_key_is_local_error "o" "r" targetRepoA [] "kid" "NAME" "VALUE" (by decide)⟩

/-- C8: `create_environment` swallows a creation failure whose text carries
the platform's duplicate-resource signal ("409" or, lower-cased, "already
exists") and reports success; every other creation failure is re-raised to
the caller as an error. -/
theorem c8_conflict_treated_as_success (org repo environment_name e : String) :
    ((containsSubstr e "409" = true ∨ containsSubstr (lowerAscii e) "already exists" = true) →
      create_environment org repo environment_name (.error e) = .ok ()) ∧
    (containsSubstr e "409" = false → containsSubstr (lowerAscii e) "already exists" = false →
      create_environment org repo environment_name (.error e) =
        .error ("Failed to create environment " ++ environment_name ++ ": " ++ e)) := by
  constructor
  · intro h
    rcases h with h | h <;> simp [create_environment, h]
  · intro h1 h2
    simp [create_environment, h1, h2]

/-- C8 witness: a conflict response on an existing environment returns
success; a 403 response is raised as an error. -/
theorem c8_witness :
    containsSubstr "409 Conflict: environment exists" "409" = true ∧
    create_environment "tgt-org" "tgt-repo" "prod"
      (.error "409 Conflict: environment exists") = .ok () ∧
    containsSubstr "403 Forbidden" "409" = false ∧
    containsSubstr (lowerAscii "403 Forbidden") "already exists" = false ∧
    create_environment "tgt-org" "tgt-repo" "prod" (.error "403 Forbidden") =
      .error ("Failed to create environment " ++ "prod" ++ ": " ++ "403 Forbidden") :=
  ⟨by decide,
   (c8_conflict_treated_as_success "tgt-org" "tgt-repo" "prod"
     "409 Conflict: environment exists").1 (Or.inl (by decide)),
   by decide, by decide,
   (c8_conflict_treated_as_success "tgt-org" "tgt-repo" "prod" "403 Forbidden").2
     (by decide) (by decide)⟩
/-- Helper: after filtering out every pair whose first component is `name`,
no pair with first component `name` remains. -/
lemma any_fst_beq_filter_ne (l : List (String × String)) (name : String) :
    (l.filter (fun b => b.1 != name)).any (fun b => b.1 == name) = false := by
  induction l with
  | nil => rfl
  | cons hd tl ih =>
      cases h : (hd.1 == name) with
      | true =>
          rw [List.filter_cons_of_neg (by simp [bne, h]), ih]
      | false =>
          rw [List.filter_cons_of_pos (by simp [bne, h]), List.any_cons, h, Bool.false_or, ih]

/-- Helper: if no pair has first component `name`, filtering those out is the
identity. -/
lemma filter_ne_of_any_eq_false (l : List (String × String)) (name : String)
    (h : l.any (fun b => b.1 == name) = false) :
    l.filter (fun b => b.1 != name) = l := by
  induction l with
  | nil => rfl
  | cons hd tl ih =>
      rw [List.any_cons, Bool.or_eq_false_iff] at h
      rw [List.filter_cons_of_pos (by simp [bne, h.1]), ih h.2]

/-- Helper: if no pair has first component `name`, keeping only those yields
the empty list. -/
lemma filter_eq_nil_of_any_eq_false (l : List (String × String)) (name : String)
    (h : l.any (fun b => b.1 == name) = false) :
    l.filter (fun b => b.1 == name) = [] := by
  induction l with
  | nil => rfl
  | cons hd tl ih =>
      rw [List.any_cons, Bool.or_eq_false_iff] at h
      rw [List.filter_cons_of_neg (by simp [h.1]), ih h.2]

/-- Helper: the fault-free delete-then-create sequence always succeeds, and
the resulting branch list is the old one purged of `name` with `(name, sha)`
appended. -/
lemma ensureBranch_sound (st : RepoState) (name sha : String) :
    ensureBranch false false st name sha =
      .ok { st with branches := st.branches.filter (fun b => b.1 != name) ++ [(name, sha)] } := by
  unfold ensureBranch deleteBranch createBranch
  cases h : st.branches.any (fun b => b.1 == name) with
  | true =>
      simp only [h, if_true, if_false, Bool.false_eq_true, ite_false, ite_true,
        any_fst_beq_filter_ne]
  | false =>
      simp only [h, if_true, if_false, Bool.false_eq_true, ite_false, ite_true,
        any_fst_beq_filter_ne, filter_ne_of_any_eq_false _ _ h]
/-- C7: the delete-then-create branch setup is idempotent — from any state,
running it twice (second time at the then-current head `sha2`) never errors
and leaves exactly one branch named `name`, at `sha2`; a not-found response
during deletion (branch absent) is swallowed while the sequence still
succeeds; and an injected creation failure is fatal (returned as an error). -/
theorem c7_delete_then_create_idempotent (st : RepoState) (name sha1 sha2 : String) :
    (∃ st1 st2, ensureBranch false false st name sha1 = .ok st1 ∧
      ensureBranch false false st1 name sha2 = .ok st2 ∧
      st2.branches.filter (fun b => b.1 == name) = [(name, sha2)]) ∧
    ((∃ e, deleteBranch
        { st with branches := st.branches.filter (fun b => b.1 != name) } name = .error e) ∧
     (∃ st1, ensureBranch false false
        { st with branches := st.branches.filter (fun b => b.1 != name) } name sha1 = .ok st1)) ∧
    (∃ e, ensureBranch false true st name sha1 = .error e) := by
  refine ⟨⟨_, _, ensureBranch_sound st name sha1, ensureBranch_sound _ name sha2, ?_⟩,
    ⟨⟨"failed to delete ref: reference does not exist", ?_⟩,
     ⟨_, ensureBranch_sound _ name sha1⟩⟩,
    ⟨"failed to create branch: network error", ?_⟩⟩
  · show ((st.branches.filter (fun b => b.1 != name) ++ [(name, sha1)]).filter
        (fun b => b.1 != name) ++ [(name, sha2)]).filter (fun b => b.1 == name) =
      [(name, sha2)]
    have h1 : List.filter (fun b => b.1 != name)
        (st.branches.filter (fun b => b.1 != name) ++ [(name, sha1)]) =
        st.branches.filter (fun b => b.1 != name) := by
      rw [List.filter_append,
        filter_ne_of_any_eq_false _ _ (any_fst_beq_filter_ne st.branches name)]
      simp
    rw [List.filter_append, h1,
      filter_eq_nil_of_any_eq_false _ _ (any_fst_beq_filter_ne st.branches name)]
    simp
  · unfold deleteBranch
    rw [any_fst_beq_filter_ne]
    simp
  · unfold ensureBranch
    simp
/-- Helper: every operation the placeholder loop issues is a public-key fetch
or a sealed-box secret upload, so any predicate holding on those holds on the
whole trace. -/
lemma createPlaceholders_all_ops (tO tR : String) (st : RepoState) (names : List String)
    (p : Op → Bool)
    (hpk : ∀ o r, p (Op.getPublicKey o r) = true)
    (hcs : ∀ o r n k key v,
      p (Op.createOrUpdateSecret o r n k (SecretPayload.sealedBox key v)) = true) :
    (createPlaceholders tO tR st names).2.all p = true := by
  induction names generalizing st with
  | nil => rfl
  | cons n rest ih =>
      simp only [createPlaceholders, createRepoSecretPlaintext, getRepoPublicKey,
        createRepoSecret]
      by_cases hk : st.publicKey.length = 32
      · simp [hk, List.all_append, hpk, hcs, ih]
      · simp [hk, hpk]

/-- Helper: every operation `runMigration` issues belongs to the engine's
fixed vocabulary (list/read calls, branch delete/create, public-key fetch,
sealed-box secret upload, file commit), so any predicate holding on that
vocabulary holds on the whole trace. -/
lemma runMigration_all_ops (cfg : Config) (w : World) (p : Op → Bool)
    (h1 : ∀ o r, p (Op.listSecrets o r) = true)
    (h2 : ∀ o r, p (Op.getDefaultBranch o r) = true)
    (h3 : ∀ o r b, p (Op.getCommitSha o r b) = true)
    (h4 : ∀ o r n, p (Op.deleteBranchRef o r n) = true)
    (h5 : ∀ o r n s, p (Op.createBranchRef o r n s) = true)
    (h6 : ∀ o r, p (Op.getPublicKey o r) = true)
    (h7 : ∀ o r n k key v,
      p (Op.createOrUpdateSecret o r n k (SecretPayload.sealedBox key v)) = true)
    (h8 : ∀ o r b pa c, p (Op.createFile o r b pa c) = true) :
    (runMigration cfg w).2.all p = true := by
  have hplc := createPlaceholders_all_ops cfg.targetOrg cfg.targetRepo w.target
    (secretsToMigrate w.source.secrets) p h6 h7
  simp only [runMigration]
  by_cases he : (secretsToMigrate w.source.secrets).isEmpty
  · simp [he, h1]
  · simp only [he, Bool.false_eq_true, if_false]
    cases hf : findBranchSha w.source.branches w.source.defaultBranch with
    | none => simp [List.all_append, h1, h2, h3]
    | some sha =>
        dsimp only
        cases hcb : createBranch
            (match deleteBranch w.source "migrate-secrets" with
             | .ok s => s
             | .error _ => w.source) "migrate-secrets" sha with
        | error e =>
            simp [h1, h2, h3, h4, h5]
        | ok src2 =>
            cases hcp : createPlaceholders cfg.targetOrg cfg.targetRepo w.target
                (secretsToMigrate w.source.secrets) with
            | mk res tl =>
                rw [hcp] at hplc
                simp only at hplc
                cases res with
                | error e =>
                    simp [List.all_append, h1, h2, h3, h4, h5, hplc]
                | ok tgt2 =>
                    simp [List.all_append, h1, h2, h3, h4, h5, h8, hplc]
/-- C9 counterexample: in the scenario-A run the orchestrator issues mutating
operations (branch deletion/creation, secret uploads, a file commit) while
its trace contains no credential scope-validation operation at all, so no
validation runs before the mutating calls. -/
theorem c9_counterexample :
    ((runMigration scenarioCfg scenarioAWorld).2.any (fun op => op.isMutating)) = true ∧
    ((runMigration scenarioCfg scenarioAWorld).2.any (fun op => op.isValidation)) = false := by
  constructor <;> decide

/-- C9 amended: the orchestrator performs no credential scope validation in
any run — its operation trace never contains a validation call; mutating
calls are issued without prior validation and credential problems surface
only as errors of the individual platform calls. -/
theorem c9_amended_no_validation_ever (cfg : Config) (w : World) :
    (runMigration cfg w).2.all (fun op => !op.isValidation) = true :=
  runMigration_all_ops cfg w _ (fun _ _ => rfl) (fun _ _ => rfl) (fun _ _ _ => rfl)
    (fun _ _ _ => rfl) (fun _ _ _ _ => rfl) (fun _ _ => rfl) (fun _ _ _ _ _ _ => rfl)
    (fun _ _ _ _ _ => rfl)

/-- C10: `CreateRepoSecretPlaintext` first fetches the repository public key
(head of its trace), never uploads a plaintext payload, and on a well-formed
32-byte key issues exactly the sealed-box upload of its value under that key;
moreover every secret upload the whole orchestrator run issues carries a
sealed-box payload, never a plaintext one. -/
theorem c10_uploads_always_sealed (org repo : String) (st : RepoState)
    (secretName secretValue : String) (cfg : Config) (w : World) :
    (createRepoSecretPlaintext org repo st secretName secretValue).2.head? =
      some (Op.getPublicKey org repo) ∧
    (createRepoSecretPlaintext org repo st secretName secretValue).2.all
      (fun op => !op.sendsPlainSecret) = true ∧
    (st.publicKey.length = 32 →
      (createRepoSecretPlaintext org repo st secretName secretValue).2 =
        [Op.getPublicKey org repo,
         Op.createOrUpdateSecret org repo secretName st.publicKeyID
           (SecretPayload.sealedBox st.publicKey secretValue)]) ∧
    (runMigration cfg w).2.all (fun op => !op.sendsPlainSecret) = true := by
  refine ⟨?_, ?_, ?_, ?_⟩
  · by_cases hk : st.publicKey.length = 32 <;>
      simp [createRepoSecretPlaintext, createRepoSecret, getRepoPublicKey, hk]
  · by_cases hk : st.publicKey.length = 32 <;>
      simp [createRepoSecretPlaintext, createRepoSecret, getRepoPublicKey, hk,
        Op.sendsPlainSecret]
  · intro hk
    simp [createRepoSecretPlaintext, createRepoSecret, getRepoPublicKey, hk]
  · exact runMigration_all_ops cfg w _ (fun _ _ => rfl) (fun _ _ => rfl) (fun _ _ _ => rfl)
      (fun _ _ _ => rfl) (fun _ _ _ _ => rfl) (fun _ _ => rfl) (fun _ _ _ _ _ _ => rfl)
      (fun _ _ _ _ _ => rfl)

/-- C10 witness: on the concrete target repository (32-byte key), the
plaintext-named call's trace is exactly the key fetch followed by the
sealed-box upload of the value under that key. -/
theorem c10_witness :
    targetRepoA.publicKey.length = 32 ∧
    (createRepoSecretPlaintext "tgt-org" "tgt-repo" targetRepoA "API_KEY"
      "REPLACE_ME_LATER").2 =
      [Op.getPublicKey "tgt-org" "tgt-repo",
       Op.createOrUpdateSecret "tgt-org" "tgt-repo" "API_KEY" targetRepoA.publicKeyID
         (SecretPayload.sealedBox targetRepoA.publicKey "REPLACE_ME_LATER")] :=
  ⟨by decide,
   (c10_uploads_always_sealed "tgt-org" "tgt-repo" targetRepoA "API_KEY" "REPLACE_ME_LATER"
     scenarioCfg scenarioAWorld).2.2.1 (by decide)⟩
/-- Helper: with a well-formed 32-byte target key the placeholder loop never
fails; its trace is one key fetch plus one sealed-box upload (of
`REPLACE_ME_LATER` under the target key) per name, and the loop preserves the
target's key material. -/
lemma createPlaceholders_ok_trace (tO tR : String) (names : List String) :
    ∀ st : RepoState, st.publicKey.length = 32 →
    ∃ st2, createPlaceholders tO tR st names =
      (.ok st2, names.flatMap (fun n =>
        [Op.getPublicKey tO tR,
         Op.createOrUpdateSecret tO tR n st.publicKeyID
           (SecretPayload.sealedBox st.publicKey "REPLACE_ME_LATER")])) ∧
      st2.publicKey = st.publicKey ∧ st2.publicKeyID = st.publicKeyID := by
  induction names with
  | nil => exact fun st _ => ⟨st, rfl, rfl, rfl⟩
  | cons n rest ih =>
      intro st hk
      have hstep : createRepoSecretPlaintext tO tR st n "REPLACE_ME_LATER" =
          (.ok { st with secrets := if st.secrets.contains n then st.secrets
                                    else st.secrets ++ [n] },
           [Op.getPublicKey tO tR,
            Op.createOrUpdateSecret tO tR n st.publicKeyID
              (SecretPayload.sealedBox st.publicKey "REPLACE_ME_LATER")]) := by
        simp [createRepoSecretPlaintext, createRepoSecret, getRepoPublicKey, hk]
      obtain ⟨st2, heq, hpk, hpkid⟩ := ih
        { st with secrets := if st.secrets.contains n then st.secrets
                             else st.secrets ++ [n] } hk
      refine ⟨st2, ?_, hpk, hpkid⟩
      simp only [createPlaceholders, hstep, heq, List.flatMap_cons]
/-- C3 amended: when the source repository's secrets are exactly `API_KEY`
and `DB_URL`, the default-branch head resolves, and the target key is well
formed, the run succeeds, the migration branch is created at the resolved
head, the workflow definition is committed, sealed placeholder uploads for
both names are issued to the target — and the source repository's secret set
is left unchanged: no temporary credential secret is stored by the run. -/
theorem c3_amended_run_without_credential_store (cfg : Config) (w : World) (sha : String)
    (hsec : w.source.secrets = ["API_KEY", "DB_URL"])
    (hsha : findBranchSha w.source.branches w.source.defaultBranch = some sha)
    (hkey : w.target.publicKey.length = 32) :
    ∃ w' tr, runMigration cfg w = (.ok w', tr) ∧
      ("migrate-secrets", sha) ∈ w'.source.branches ∧
      ("migrate-secrets", ".github/workflows/migrate-secrets.yml",
        generateWorkflow cfg.targetOrg cfg.targetRepo "migrate-secrets") ∈ w'.source.files ∧
      Op.createOrUpdateSecret cfg.targetOrg cfg.targetRepo "API_KEY" w.target.publicKeyID
        (SecretPayload.sealedBox w.target.publicKey "REPLACE_ME_LATER") ∈ tr ∧
      Op.createOrUpdateSecret cfg.targetOrg cfg.targetRepo "DB_URL" w.target.publicKeyID
        (SecretPayload.sealedBox w.target.publicKey "REPLACE_ME_LATER") ∈ tr ∧
      w'.source.secrets = w.source.secrets := by
  have hstm : secretsToMigrate w.source.secrets = ["API_KEY", "DB_URL"] := by
    rw [hsec]; rfl
  obtain ⟨tgt2, hcp, hpk, hpkid⟩ :=
    createPlaceholders_ok_trace cfg.targetOrg cfg.targetRepo ["API_KEY", "DB_URL"]
      w.target hkey
  simp only [runMigration, hstm, hsha, hcp]
  cases hdel : w.source.branches.any (fun b => b.1 == "migrate-secrets") with
  | true =>
      simp only [deleteBranch, hdel, if_true, createBranch, any_fst_beq_filter_ne,
        Bool.false_eq_true, if_false, hcp]
      refine ⟨_, _, rfl, ?_, ?_, ?_, ?_, ?_⟩ <;> simp
  | false =>
      simp only [deleteBranch, hdel, Bool.false_eq_true, if_false, createBranch, hdel,
        hcp]
      refine ⟨_, _, rfl, ?_, ?_, ?_, ?_, ?_⟩ <;> simp
/-- C3 counterexample: in scenario A the run succeeds but the source
repository's secret set afterwards is still exactly `API_KEY, DB_URL` — no
temporary credential secret was stored on the source — and the rendered
definition does not reference the secret name `API_KEY` (nor, a fortiori,
both names). -/
theorem c3_counterexample :
    ((runMigration scenarioCfg scenarioAWorld).1.toOption.map
      (fun w => w.source.secrets)) = some ["API_KEY", "DB_URL"] ∧
    containsSubstr (generateWorkflow scenarioCfg.targetOrg scenarioCfg.targetRepo
      "migrate-secrets") "API_KEY" = false := by
  constructor <;> decide

/-- C3 witness: the amended statement instantiated at the concrete scenario-A
world. -/
theorem c3_witness :
    scenarioAWorld.source.secrets = ["API_KEY", "DB_URL"] ∧
    findBranchSha scenarioAWorld.source.branches scenarioAWorld.source.defaultBranch =
      some "shaMain" ∧
    scenarioAWorld.target.publicKey.length = 32 ∧
    (∃ w' tr, runMigration scenarioCfg scenarioAWorld = (.ok w', tr) ∧
      ("migrate-secrets", "shaMain") ∈ w'.source.branches ∧
      ("migrate-secrets", ".github/workflows/migrate-secrets.yml",
        generateWorkflow scenarioCfg.targetOrg scenarioCfg.targetRepo "migrate-secrets") ∈
        w'.source.files ∧
      Op.createOrUpdateSecret scenarioCfg.targetOrg scenarioCfg.targetRepo "API_KEY"
        scenarioAWorld.target.publicKeyID
        (SecretPayload.sealedBox scenarioAWorld.target.publicKey "REPLACE_ME_LATER") ∈ tr ∧
      Op.createOrUpdateSecret scenarioCfg.targetOrg scenarioCfg.targetRepo "DB_URL"
        scenarioAWorld.target.publicKeyID
        (SecretPayload.sealedBox scenarioAWorld.target.publicKey "REPLACE_ME_LATER") ∈ tr ∧
      w'.source.secrets = scenarioAWorld.source.secrets) :=
  ⟨rfl, by decide, by decide,
   c3_amended_run_without_credential_store scenarioCfg scenarioAWorld "shaMain" rfl
     (by decide) (by decide)⟩
